import Mathlib

/-!
Verification development for `tools/fan_tui.py`, the terminal dashboard that
mirrors and edits the configuration of a networked fan/light appliance.

The embedding models, from the source:
* `ValueBar` (bounded integer control with `[-]`/`[+]` buttons),
* `ModeSelector` (OFF/ON/AUTO radio control),
* the `FanApp` refresh pass (`_refresh_all` and the six per-tab refreshes),
* the user-event handlers (`_on_value_changed`, `_on_switch_changed`,
  `_on_mode_changed`, `_on_nl_color_preset`),
* the connection procedure (`_connect_device`) and the device-update callback.

The `aiobafi6.Device` object and the Textual widget toolkit are external
collaborators: where their behaviour decides a claim it is modelled from the
specification (see the doc comments starting with `Modelled from the spec`).
-/

set_option maxHeartbeats 1000000

/-- Tri-state device mode, mirroring `aiobafi6.OffOnAuto` (OFF=0, ON=1, AUTO=2). -/
inductive OffOnAuto
  | off
  | on
  | auto
deriving DecidableEq, Repr

/-- Values carried by device writes and quiet control updates: Python ints,
bools, floats (embedded as rationals) and `OffOnAuto` enum values. -/
inductive Val
  | i (n : Int)
  | b (x : Bool)
  | m (x : OffOnAuto)
  | q (x : Rat)
deriving DecidableEq, Repr

/-- A device write: aiobafi6 `Device` attribute name paired with the value written. -/
abbrev DevWrite := String × Val

/-- A quiet update applied to a control during a refresh pass: widget id paired
with the value delivered to it. -/
abbrev QuietUpdate := String × Val

/-- State of a `ValueBar` widget: its bounds, step, current (reactive) value and
the per-widget `_suppress` flag. The displayed progress/label are pure functions
of `value` (see `watch_value` in the source), so `value` is the displayed state. -/
structure ValueBar where
  minVal : Int
  maxVal : Int
  stepVal : Int
  value : Int
  suppress : Bool
deriving DecidableEq, Repr

/-- Embedding of `ValueBar.set_value_quiet`: sets `_suppress`, assigns
`max(self._min, min(self._max, v))` to the reactive value, clears `_suppress`.
No message is posted anywhere on this path. -/
def ValueBar.set_value_quiet (bar : ValueBar) (v : Int) : ValueBar :=
  let b1 := { bar with suppress := true }
  let b2 := { b1 with value := max b1.minVal (min b1.maxVal v) }
  { b2 with suppress := false }

/-- The two buttons of a `ValueBar` (`{id}-dec` and `{id}-inc`). -/
inductive BtnId
  | dec
  | inc
deriving DecidableEq, Repr

/-- Embedding of `ValueBar._on_button`: computes the stepped-and-clipped target;
if it differs from the current value, assigns it and, unless `_suppress` is set,
posts exactly one `Changed` message carrying the new value. The returned list
is the list of posted `Changed` values. -/
def ValueBar.on_button (bar : ValueBar) (btn : BtnId) : ValueBar × List Int :=
  let new := match btn with
    | BtnId.dec => max bar.minVal (bar.value - bar.stepVal)
    | BtnId.inc => min bar.maxVal (bar.value + bar.stepVal)
  if new ≠ bar.value then
    let b1 := { bar with value := new }
    if b1.suppress = false then (b1, [b1.value]) else (b1, [])
  else (bar, [])

/-- The stepped-and-clipped target value that a button press aims at, exactly as
computed at the top of `ValueBar._on_button`. -/
def ValueBar.btnTarget (bar : ValueBar) (btn : BtnId) : Int :=
  match btn with
  | BtnId.dec => max bar.minVal (bar.value - bar.stepVal)
  | BtnId.inc => min bar.maxVal (bar.value + bar.stepVal)

/-- State of a `ModeSelector` widget: the selected radio button (if any) and the
per-widget `_suppress` flag. -/
structure ModeSelector where
  selected : Option OffOnAuto
  suppress : Bool
deriving DecidableEq, Repr

/-- Embedding of `ModeSelector.set_value_quiet`: sets `_suppress`, presses the
radio button for `mode`, clears `_suppress`. Posts nothing. -/
def ModeSelector.set_value_quiet (sel : ModeSelector) (mode : OffOnAuto) : ModeSelector :=
  let s1 := { sel with suppress := true }
  let s2 := { s1 with selected := some mode }
  { s2 with suppress := false }

/-- Embedding of `ModeSelector._on_radio_changed`: posts one `Changed` message
with the newly pressed mode unless `_suppress` is set. The returned list is the
list of posted `Changed` values. -/
def ModeSelector.on_radio_changed (sel : ModeSelector) (mode : OffOnAuto) : List OffOnAuto :=
  if sel.suppress = false then [mode] else []

/-- Python `round` with no digits argument: round half to even, returning an
integer. Used by `_refresh_fan` as `int(round(ideal))`; a Python float's value
is an exact rational, so the embedding works over `Rat`. With `f = ⌊q⌋` the
fractional part is `r = q - f = (num - f*den)/den`, so `r < 1/2`, `r > 1/2`
and `r = 1/2` are compared through `2*(num - f*den)` against `den`. -/
def pythonRound (q : Rat) : Int :=
  let f := Rat.floor q
  let twiceFrac := 2 * q.num - 2 * f * (q.den : Int)
  if twiceFrac < (q.den : Int) then f
  else if (q.den : Int) < twiceFrac then f + 1
  else if f % 2 = 0 then f else f + 1

/-- Readable projection of the aiobafi6 `Device` properties consumed by the app.
Optional fields are `none` when the device has not reported them (`None` in
Python). -/
structure DeviceProps where
  name : Option String
  model : Option String
  firmware_version : Option String
  ip_address : Option String
  available : Bool
  fan_mode : Option OffOnAuto
  speed : Option Int
  whoosh_enable : Option Bool
  eco_enable : Option Bool
  reverse_enable : Option Bool
  auto_comfort_enable : Option Bool
  comfort_ideal_temperature : Option Rat
  comfort_min_speed : Option Int
  comfort_max_speed : Option Int
  comfort_heat_assist_enable : Option Bool
  comfort_heat_assist_speed : Option Int
  comfort_heat_assist_reverse_enable : Option Bool
  motion_sense_enable : Option Bool
  motion_sense_timeout : Option Int
  return_to_auto_enable : Option Bool
  return_to_auto_timeout : Option Int
  smart_mix_enable : Option Bool
  smart_mix_speed : Option Int
  has_any_light : Bool
  light_mode : Option OffOnAuto
  light_brightness_percent : Option Int
  light_color_temperature : Option Int
  light_warmest_color_temperature : Option Int
  light_coolest_color_temperature : Option Int
  light_dim_to_warm_enable : Option Bool
  light_auto_motion_timeout : Option Int
  light_return_to_auto_enable : Option Bool
  light_return_to_auto_timeout : Option Int
  has_nightlight : Bool
  nightlight_enabled : Option Bool
  nightlight_brightness_percent : Option Int
  nightlight_color : Option Int
  temperature : Option Rat
  humidity : Option Int
  current_rpm : Option Int
  target_rpm : Option Int
  fan_occupancy_detected : Option Bool
  light_occupancy_detected : Option Bool
  led_indicators_enable : Option Bool
  fan_beep_enable : Option Bool
  legacy_ir_remote_enable : Option Bool
deriving DecidableEq, Repr

/-- The attached aiobafi6 `Device`: its current property snapshot plus the
ordered log of writes issued to it by the app. -/
structure Device where
  props : DeviceProps
  writes : List DevWrite
deriving DecidableEq, Repr

/-- Modelled from the spec: assigning a settable aiobafi6 `Device` property
(`dev.speed = v` etc.) issues a device write; the engine "does not
optimistically update its own `currentSnapshot` from a user write; the updated
value is only reflected once the device link delivers the corresponding
snapshot update". So a write appends to the write log and leaves `props`
untouched. The `Device` class itself is outside the modelled source. -/
def Device.write (dev : Device) (field : String) (v : Val) : Device :=
  { dev with writes := dev.writes ++ [(field, v)] }

/-- State of every control and label composed by `FanApp.compose`, plus the two
capability-gated tab visibility flags and the header/status texts. Switches are
plain booleans; sensor labels keep their semantic content (their string
rendering is presentation only). -/
structure Controls where
  fanModeSel : ModeSelector
  fanSpeed : ValueBar
  whooshSw : Bool
  ecoSw : Bool
  reverseSw : Bool
  comfortSw : Bool
  comfortTempBar : ValueBar
  comfortMinBar : ValueBar
  comfortMaxBar : ValueBar
  heatAssistSw : Bool
  heatSpeedBar : ValueBar
  heatReverseSw : Bool
  motionSw : Bool
  motionTimeoutBar : ValueBar
  rtaSw : Bool
  rtaTimeoutBar : ValueBar
  smartmixSw : Bool
  smartmixSpeedBar : ValueBar
  lightModeSel : ModeSelector
  lightBrightBar : ValueBar
  lightCtBar : ValueBar
  dtwSw : Bool
  lightMotionTimeoutBar : ValueBar
  lightRtaSw : Bool
  lightRtaTimeoutBar : ValueBar
  nlEnabledSw : Bool
  nlBrightBar : ValueBar
  nlColorBar : ValueBar
  nlActivePreset : Option Int
  lightTabVisible : Bool
  nightlightTabVisible : Bool
  tempLabel : Option Rat
  humidityLabel : Option Int
  rpmLabel : Option Int × Option Int
  fanOccLabel : Option Bool
  lightOccLabel : Option Bool
  ledSw : Bool
  beepSw : Bool
  irSw : Bool
  titleText : String
  subTitleText : String
  statusBar : String
deriving DecidableEq, Repr

/-- Whole-app state: the engine-wide `_updating` suppress flag, the optional
attached device, the connection-link bookkeeping, and the UI. -/
structure AppState where
  updating : Bool
  device : Option Device
  callbackRegistered : Bool
  linkRunning : Bool
  ui : Controls
deriving DecidableEq, Repr

/-- Write log of the attached device (empty when no device is attached). -/
def devWrites (s : AppState) : List DevWrite :=
  match s.device with
  | some dev => dev.writes
  | none => []

/-- Property snapshot of the attached device, if any. -/
def devProps (s : AppState) : Option DeviceProps :=
  Option.map Device.props s.device

/-- Quietly apply an optional device integer to a `ValueBar`, as the source's
`if x is not None: bar.set_value_quiet(x)` pattern. -/
def quietBar (o : Option Int) (bar : ValueBar) : ValueBar :=
  match o with
  | some v => bar.set_value_quiet v
  | none => bar

/-- Quiet-update log entry for a `quietBar` application. -/
def barLog (wid : String) (o : Option Int) : List QuietUpdate :=
  match o with
  | some v => [(wid, Val.i v)]
  | none => []

/-- Quietly apply an optional device mode to a `ModeSelector`. -/
def quietMode (o : Option OffOnAuto) (sel : ModeSelector) : ModeSelector :=
  match o with
  | some v => sel.set_value_quiet v
  | none => sel

/-- Quiet-update log entry for a `quietMode` application. -/
def modeLog (wid : String) (o : Option OffOnAuto) : List QuietUpdate :=
  match o with
  | some v => [(wid, Val.m v)]
  | none => []

/-- Apply an optional device boolean to a `Switch`, as the source's
`if x is not None: sw.value = x` pattern. -/
def quietSw (o : Option Bool) (w : Bool) : Bool :=
  match o with
  | some v => v
  | none => w

/-- Quiet-update log entry for a `quietSw` application. -/
def swLog (sid : String) (o : Option Bool) : List QuietUpdate :=
  match o with
  | some v => [(sid, Val.b v)]
  | none => []

/-- Keep the previous label content unless the device reported a value, as the
source's `if x is not None: label.update(...)` pattern. -/
def keepSome (o cur : Option α) : Option α :=
  match o with
  | some v => some v
  | none => cur

/-- Python string-or: `s or d` falls back to `d` when `s` is `None` or empty. -/
def pyStrOr (o : Option String) (d : String) : String :=
  match o with
  | some v => if v = "" then d else v
  | none => d

/-- Embedding of `FanApp._refresh_header`: recomputes the title, subtitle and
status bar from the device's read-only attributes. -/
def refresh_header (p : DeviceProps) (c : Controls) : Controls × List QuietUpdate :=
  ({ c with
      titleText := pyStrOr p.name "Unknown",
      subTitleText :=
        pyStrOr p.model "" ++ "  FW " ++ pyStrOr p.firmware_version "" ++ "  " ++
          pyStrOr p.ip_address "" ++ "  [" ++
          (if p.available then "Connected" else "Connecting...") ++ "]",
      statusBar :=
        pyStrOr p.name "Unknown" ++ " | " ++ pyStrOr p.model "" ++ " | " ++
          pyStrOr p.ip_address "" ++ " | " ++
          (if p.available then "Connected" else "Connecting...") },
   [])

/-- Embedding of `FanApp._refresh_fan`: quietly applies every reported fan-tab
field to its control; the comfort ideal temperature goes through
`int(round(ideal))` first. -/
def refresh_fan (p : DeviceProps) (c : Controls) : Controls × List QuietUpdate :=
  ({ c with
      fanModeSel := quietMode p.fan_mode c.fanModeSel,
      fanSpeed := quietBar p.speed c.fanSpeed,
      whooshSw := quietSw p.whoosh_enable c.whooshSw,
      ecoSw := quietSw p.eco_enable c.ecoSw,
      reverseSw := quietSw p.reverse_enable c.reverseSw,
      comfortSw := quietSw p.auto_comfort_enable c.comfortSw,
      comfortTempBar :=
        quietBar (Option.map pythonRound p.comfort_ideal_temperature) c.comfortTempBar,
      comfortMinBar := quietBar p.comfort_min_speed c.comfortMinBar,
      comfortMaxBar := quietBar p.comfort_max_speed c.comfortMaxBar,
      heatAssistSw := quietSw p.comfort_heat_assist_enable c.heatAssistSw,
      heatSpeedBar := quietBar p.comfort_heat_assist_speed c.heatSpeedBar,
      heatReverseSw := quietSw p.comfort_heat_assist_reverse_enable c.heatReverseSw,
      motionSw := quietSw p.motion_sense_enable c.motionSw,
      motionTimeoutBar := quietBar p.motion_sense_timeout c.motionTimeoutBar,
      rtaSw := quietSw p.return_to_auto_enable c.rtaSw,
      rtaTimeoutBar := quietBar p.return_to_auto_timeout c.rtaTimeoutBar,
      smartmixSw := quietSw p.smart_mix_enable c.smartmixSw,
      smartmixSpeedBar := quietBar p.smart_mix_speed c.smartmixSpeedBar },
   modeLog "fan-mode-sel" p.fan_mode ++
     barLog "fan-speed" p.speed ++
     swLog "whoosh-sw" p.whoosh_enable ++
     swLog "eco-sw" p.eco_enable ++
     swLog "reverse-sw" p.reverse_enable ++
     swLog "comfort-sw" p.auto_comfort_enable ++
     barLog "comfort-temp-bar" (Option.map pythonRound p.comfort_ideal_temperature) ++
     barLog "comfort-min-bar" p.comfort_min_speed ++
     barLog "comfort-max-bar" p.comfort_max_speed ++
     swLog "heat-assist-sw" p.comfort_heat_assist_enable ++
     barLog "heat-speed-bar" p.comfort_heat_assist_speed ++
     swLog "heat-reverse-sw" p.comfort_heat_assist_reverse_enable ++
     swLog "motion-sw" p.motion_sense_enable ++
     barLog "motion-timeout-bar" p.motion_sense_timeout ++
     swLog "rta-sw" p.return_to_auto_enable ++
     barLog "rta-timeout-bar" p.return_to_auto_timeout ++
     swLog "smartmix-sw" p.smart_mix_enable ++
     barLog "smartmix-speed-bar" p.smart_mix_speed)

/-- Re-range the color-temperature bar from the device-reported warmest and
coolest color temperatures, exactly as `_refresh_light` assigns `ct_bar._min`
and `ct_bar._max` (and the progress total) when both are reported. No message
is posted on this path. -/
def reRangeCt (warm cool : Option Int) (bar : ValueBar) : ValueBar :=
  match warm, cool with
  | some w, some c => { bar with minVal := w, maxVal := c }
  | some _, none => bar
  | none, some _ => bar
  | none, none => bar

/-- Embedding of `FanApp._refresh_light`: when the device has no light the tab
is hidden and nothing else happens; otherwise every reported light-tab field is
quietly applied, with the color-temperature bounds re-ranged before its value
is quiet-set (same statement order as the source). -/
def refresh_light (p : DeviceProps) (c : Controls) : Controls × List QuietUpdate :=
  if p.has_any_light = false then
    ({ c with lightTabVisible := false }, [])
  else
    ({ c with
        lightModeSel := quietMode p.light_mode c.lightModeSel,
        lightBrightBar := quietBar p.light_brightness_percent c.lightBrightBar,
        lightCtBar :=
          quietBar p.light_color_temperature
            (reRangeCt p.light_warmest_color_temperature
              p.light_coolest_color_temperature c.lightCtBar),
        dtwSw := quietSw p.light_dim_to_warm_enable c.dtwSw,
        lightMotionTimeoutBar := quietBar p.light_auto_motion_timeout c.lightMotionTimeoutBar,
        lightRtaSw := quietSw p.light_return_to_auto_enable c.lightRtaSw,
        lightRtaTimeoutBar := quietBar p.light_return_to_auto_timeout c.lightRtaTimeoutBar },
     modeLog "light-mode-sel" p.light_mode ++
       barLog "light-bright-bar" p.light_brightness_percent ++
       barLog "light-ct-bar" p.light_color_temperature ++
       swLog "dtw-sw" p.light_dim_to_warm_enable ++
       barLog "light-motion-timeout-bar" p.light_auto_motion_timeout ++
       swLog "light-rta-sw" p.light_return_to_auto_enable ++
       barLog "light-rta-timeout-bar" p.light_return_to_auto_timeout)

/-- The nightlight color preset values, in the order of `NIGHTLIGHT_COLORS`. -/
def presetVals : List Int := [1, 8, 5, 2, 4, 3, 6, 7, 9]

/-- Active-preset highlighting in `_refresh_nightlight`: when a color is
reported, the `-active` class moves to the matching preset button (none when no
button matches, as the `query_one` failure is swallowed); otherwise it stays. -/
def activePreset (o : Option Int) (cur : Option Int) : Option Int :=
  match o with
  | some v => if presetVals.contains v then some v else none
  | none => cur

/-- Embedding of `FanApp._refresh_nightlight`: when the device has no nightlight
the tab is hidden and nothing else happens; otherwise the enabled switch,
brightness bar, color bar and preset highlight are applied. -/
def refresh_nightlight (p : DeviceProps) (c : Controls) : Controls × List QuietUpdate :=
  if p.has_nightlight = false then
    ({ c with nightlightTabVisible := false }, [])
  else
    ({ c with
        nlEnabledSw := quietSw p.nightlight_enabled c.nlEnabledSw,
        nlBrightBar := quietBar p.nightlight_brightness_percent c.nlBrightBar,
        nlColorBar := quietBar p.nightlight_color c.nlColorBar,
        nlActivePreset := activePreset p.nightlight_color c.nlActivePreset },
     swLog "nl-enabled-sw" p.nightlight_enabled ++
       barLog "nl-bright-bar" p.nightlight_brightness_percent ++
       barLog "nl-color-bar" p.nightlight_color)

/-- Embedding of `FanApp._refresh_sensors`: sensor labels keep their previous
content unless the device reported a value; the RPM label is recomputed
unconditionally from current and target RPM. -/
def refresh_sensors (p : DeviceProps) (c : Controls) : Controls × List QuietUpdate :=
  ({ c with
      tempLabel := keepSome p.temperature c.tempLabel,
      humidityLabel := keepSome p.humidity c.humidityLabel,
      rpmLabel := (p.current_rpm, p.target_rpm),
      fanOccLabel := keepSome p.fan_occupancy_detected c.fanOccLabel,
      lightOccLabel := keepSome p.light_occupancy_detected c.lightOccLabel },
   [])

/-- Embedding of `FanApp._refresh_settings`: the three settings switches. -/
def refresh_settings (p : DeviceProps) (c : Controls) : Controls × List QuietUpdate :=
  ({ c with
      ledSw := quietSw p.led_indicators_enable c.ledSw,
      beepSw := quietSw p.fan_beep_enable c.beepSw,
      irSw := quietSw p.legacy_ir_remote_enable c.irSw },
   swLog "led-sw" p.led_indicators_enable ++
     swLog "beep-sw" p.fan_beep_enable ++
     swLog "ir-sw" p.legacy_ir_remote_enable)

/-- A step of the refresh body: transforms the app state, logs the quiet
updates it performed, and optionally raises an error (the `Option String`). -/
abbrev RefreshAct := AppState → AppState × List QuietUpdate × Option String

/-- Lift a per-tab refresh (which touches only the UI and cannot itself raise
in the embedding) to a `RefreshAct`. -/
def liftUI (f : DeviceProps → Controls → Controls × List QuietUpdate)
    (p : DeviceProps) : RefreshAct :=
  fun s =>
    let r := f p s.ui
    ({ s with ui := r.1 }, r.2, none)

/-- Run refresh actions in order, stopping at (and propagating) the first
raised error, as a Python statement sequence does. -/
def runActs : List RefreshAct → AppState → AppState × List QuietUpdate × Option String
  | [], s => (s, [], none)
  | a :: rest, s =>
    let r := a s
    match r.2.2 with
    | some e => (r.1, r.2.1, some e)
    | none =>
      let r2 := runActs rest r.1
      (r2.1, r.2.1 ++ r2.2.1, r2.2.2)

/-- Embedding of the `try/finally` skeleton of `FanApp._refresh_all`: set
`_updating`, run the body, and clear `_updating` whether or not the body raised
(a raised error is propagated in the third component). -/
def refreshAllWith (acts : List RefreshAct) (s : AppState) :
    AppState × List QuietUpdate × Option String :=
  let r := runActs acts { s with updating := true }
  ({ r.1 with updating := false }, r.2.1, r.2.2)

/-- Embedding of `FanApp._refresh_all`: returns immediately when no device is
attached; otherwise runs the six per-tab refreshes under the `_updating` flag. -/
def refresh_all (s : AppState) : AppState × List QuietUpdate × Option String :=
  match s.device with
  | none => (s, [], none)
  | some dev =>
    refreshAllWith
      [ liftUI refresh_header dev.props,
        liftUI refresh_fan dev.props,
        liftUI refresh_light dev.props,
        liftUI refresh_nightlight dev.props,
        liftUI refresh_sensors dev.props,
        liftUI refresh_settings dev.props ] s

/-- The prerequisite test of `_on_value_changed` for mode-coupled bars:
`dev.X_mode is not None and OffOnAuto(dev.X_mode) != OffOnAuto.ON`. -/
def needsOn : Option OffOnAuto → Bool
  | some m => m != OffOnAuto.on
  | none => false

/-- Dispatch table of `FanApp._on_value_changed`: for each `ValueBar` widget id,
the device resulting from the branch body. Each `elif wid == ...` branch of the
source assigns one device attribute (issuing one write); the three
mode-coupled branches (`fan-speed`, `light-bright-bar`, `light-ct-bar`)
first conditionally write mode = ON. `none` means no branch matched. -/
def value_writes (dev : Device) (wid : String) (v : Int) : Option Device :=
  match wid with
  | "fan-speed" =>
    some ((if needsOn dev.props.fan_mode then
        dev.write "fan_mode" (Val.m OffOnAuto.on) else dev).write "speed" (Val.i v))
  | "light-bright-bar" =>
    some ((if needsOn dev.props.light_mode then
        dev.write "light_mode" (Val.m OffOnAuto.on) else dev).write
      "light_brightness_percent" (Val.i v))
  | "light-ct-bar" =>
    some ((if needsOn dev.props.light_mode then
        dev.write "light_mode" (Val.m OffOnAuto.on) else dev).write
      "light_color_temperature" (Val.i v))
  | "smartmix-speed-bar" => some (dev.write "smart_mix_speed" (Val.i v))
  | "comfort-temp-bar" => some (dev.write "comfort_ideal_temperature" (Val.q (v : Rat)))
  | "comfort-min-bar" => some (dev.write "comfort_min_speed" (Val.i v))
  | "comfort-max-bar" => some (dev.write "comfort_max_speed" (Val.i v))
  | "heat-speed-bar" => some (dev.write "comfort_heat_assist_speed" (Val.i v))
  | "motion-timeout-bar" => some (dev.write "motion_sense_timeout" (Val.i v))
  | "rta-timeout-bar" => some (dev.write "return_to_auto_timeout" (Val.i v))
  | "light-motion-timeout-bar" => some (dev.write "light_auto_motion_timeout" (Val.i v))
  | "light-rta-timeout-bar" => some (dev.write "light_return_to_auto_timeout" (Val.i v))
  | "nl-bright-bar" => some (dev.write "nightlight_brightness_percent" (Val.i v))
  | "nl-color-bar" => some (dev.write "nightlight_color" (Val.i v))
  | _ => none

/-- Embedding of `FanApp._on_value_changed`: ignored when `_updating` is set or
no device is attached; otherwise the matching branch of `value_writes` issues
its writes (prerequisite mode=ON first where applicable), and an unmatched
widget id does nothing. -/
def on_value_changed (s : AppState) (wid : String) (v : Int) : AppState :=
  if s.updating then s
  else
    match s.device with
    | none => s
    | some dev =>
      match value_writes dev wid v with
      | some dev1 => { s with device := some dev1 }
      | none => s

/-- The `switch_map` dictionary of `FanApp._on_switch_changed`. -/
def switch_map (sid : String) : Option String :=
  match sid with
  | "whoosh-sw" => some "whoosh_enable"
  | "eco-sw" => some "eco_enable"
  | "reverse-sw" => some "reverse_enable"
  | "comfort-sw" => some "auto_comfort_enable"
  | "heat-assist-sw" => some "comfort_heat_assist_enable"
  | "heat-reverse-sw" => some "comfort_heat_assist_reverse_enable"
  | "motion-sw" => some "motion_sense_enable"
  | "rta-sw" => some "return_to_auto_enable"
  | "smartmix-sw" => some "smart_mix_enable"
  | "dtw-sw" => some "light_dim_to_warm_enable"
  | "light-rta-sw" => some "light_return_to_auto_enable"
  | "nl-enabled-sw" => some "nightlight_enabled"
  | "led-sw" => some "led_indicators_enable"
  | "beep-sw" => some "fan_beep_enable"
  | "ir-sw" => some "legacy_ir_remote_enable"
  | _ => none

/-- Embedding of `FanApp._on_switch_changed`: ignored when `_updating` is set or
no device is attached; otherwise writes the mapped attribute, or nothing when
the switch id is not in the map. -/
def on_switch_changed (s : AppState) (sid : String) (v : Bool) : AppState :=
  if s.updating then s
  else
    match s.device with
    | none => s
    | some dev =>
      match switch_map sid with
      | some attr => { s with device := some (dev.write attr (Val.b v)) }
      | none => s

/-- Embedding of `FanApp._on_mode_changed`: ignored when `_updating` is set or
no device is attached; otherwise writes the fan or light mode. -/
def on_mode_changed (s : AppState) (wid : String) (m : OffOnAuto) : AppState :=
  if s.updating then s
  else
    match s.device with
    | none => s
    | some dev =>
      match wid with
      | "fan-mode-sel" => { s with device := some (dev.write "fan_mode" (Val.m m)) }
      | "light-mode-sel" => { s with device := some (dev.write "light_mode" (Val.m m)) }
      | _ => s

/-- Embedding of `FanApp._on_nl_color_preset`: ignored when `_updating` is set
or no device is attached; otherwise writes the nightlight color. The pressed
button's id is `nl-c-{v}`, so the handler's prefix parse recovers exactly `v`. -/
def on_nl_color_preset (s : AppState) (v : Int) : AppState :=
  if s.updating then s
  else
    match s.device with
    | none => s
    | some dev => { s with device := some (dev.write "nightlight_color" (Val.i v)) }

/-- The `ValueBar` widget ids composed inside the nightlight tab. -/
def nlBarIds : List String := ["nl-bright-bar", "nl-color-bar"]

/-- The `ValueBar` widget ids composed inside the light tab. -/
def lightBarIds : List String :=
  ["light-bright-bar", "light-ct-bar", "light-motion-timeout-bar", "light-rta-timeout-bar"]

/-- The switch ids composed inside the nightlight tab. -/
def nlSwIds : List String := ["nl-enabled-sw"]

/-- The switch ids composed inside the light tab. -/
def lightSwIds : List String := ["dtw-sw", "light-rta-sw"]

/-- Modelled from the spec: a control whose group is hidden cannot be
interacted with, so it emits no user events ("groups not indicated as present
are hidden and their controls are excluded ... from user-event dispatch").
A `ValueBar` is interactable iff its owning tab is displayed. -/
def barVisible (c : Controls) (wid : String) : Bool :=
  if nlBarIds.contains wid then c.nightlightTabVisible
  else if lightBarIds.contains wid then c.lightTabVisible
  else true

/-- Modelled from the spec: switch interactability, by owning tab. -/
def swVisible (c : Controls) (sid : String) : Bool :=
  if nlSwIds.contains sid then c.nightlightTabVisible
  else if lightSwIds.contains sid then c.lightTabVisible
  else true

/-- Modelled from the spec: mode-selector interactability, by owning tab. -/
def modeVisible (c : Controls) (wid : String) : Bool :=
  if wid = "light-mode-sel" then c.lightTabVisible else true

/-- An observable step of a run: a device snapshot delivered through the update
callback, or a user interaction with one of the controls. -/
inductive AppAction
  | snapshot (p : DeviceProps)
  | valueChanged (wid : String) (v : Int)
  | switchChanged (sid : String) (v : Bool)
  | modeChanged (wid : String) (m : OffOnAuto)
  | nlPreset (v : Int)

/-- Overlay a freshly delivered property snapshot onto the attached device,
keeping the write log. -/
def applyProps (s : AppState) (p : DeviceProps) : AppState :=
  { s with device := some { props := p, writes := devWrites s } }

/-- One step of a run: a snapshot triggers `_refresh_all` via the registered
callback; a user interaction reaches its handler only when the owning control
is visible (hidden tabs cannot be interacted with). -/
def stepApp (s : AppState) : AppAction → AppState
  | AppAction.snapshot p => (refresh_all (applyProps s p)).1
  | AppAction.valueChanged wid v => if barVisible s.ui wid then on_value_changed s wid v else s
  | AppAction.switchChanged sid v => if swVisible s.ui sid then on_switch_changed s sid v else s
  | AppAction.modeChanged wid m => if modeVisible s.ui wid then on_mode_changed s wid m else s
  | AppAction.nlPreset v => if s.ui.nightlightTabVisible then on_nl_color_preset s v else s

/-- A run: fold the steps over an action sequence. -/
def runApp (s : AppState) (acts : List AppAction) : AppState :=
  acts.foldl stepApp s

/-- The aiobafi6 attribute names of the nightlight control group. -/
def nlFields : List String :=
  ["nightlight_enabled", "nightlight_brightness_percent", "nightlight_color"]

/-- Does a device write target a nightlight-group field? -/
def nlWrite (w : DevWrite) : Bool := nlFields.contains w.1

/-- Environment of one `_connect_device` attempt, supplied by the external
collaborators: the address-resolution outcome, whether `async_wait_available`
signals within the 10 s bound, and the device properties at connect time. -/
structure ConnEnv where
  resolveResult : Except String String
  waitAvailable : Bool
  firstProps : DeviceProps

/-- Embedding of `FanApp._connect_device`: resolve (reporting a resolution
failure on the status line and stopping), construct the device, register the
update callback, start the link running, then wait for availability; on
timeout report it on the status line and return, deliberately leaving the
callback registered and the link running; on success run `_refresh_all`. -/
def connect_device (host : String) (port : Int) (env : ConnEnv) (s : AppState) : AppState :=
  let s := { s with ui := { s.ui with statusBar := "Resolving " ++ host ++ "..." } }
  match env.resolveResult with
  | Except.error e =>
    { s with ui := { s.ui with statusBar := "DNS resolution failed: " ++ e } }
  | Except.ok ip =>
    let s := { s with ui :=
      { s.ui with statusBar := "Connecting to " ++ ip ++ ":" ++ toString port ++ "..." } }
    let s := { s with
      device := some { props := env.firstProps, writes := [] },
      callbackRegistered := true,
      linkRunning := true }
    if env.waitAvailable = false then
      { s with ui := { s.ui with statusBar :=
          "Connection to " ++ ip ++ " timed out – retrying in background..." } }
    else
      (refresh_all s).1

/-- Embedding of `FanApp._on_device_update` as delivered by the link: the
callback only fires when it was registered via `add_callback`, and it refreshes
the whole UI from the freshly delivered device state. -/
def on_device_update (p : DeviceProps) (s : AppState) : AppState :=
  if s.callbackRegistered then (refresh_all (applyProps s p)).1 else s

/-- The status line `_refresh_header` writes for device properties `p`. -/
def headerStatusLine (p : DeviceProps) : String :=
  pyStrOr p.name "Unknown" ++ " | " ++ pyStrOr p.model "" ++ " | " ++
    pyStrOr p.ip_address "" ++ " | " ++
    (if p.available then "Connected" else "Connecting...")

/-- The timed-out status line written by `_connect_device`. -/
def timeoutStatusLine (ip : String) : String :=
  "Connection to " ++ ip ++ " timed out – retrying in background..."

/-- Controls state right after `FanApp.compose`: every bar starts at the
reactive default value 0 with the bounds and steps given in `compose`, every
switch starts off, both capability-gated tabs are displayed, labels are empty
and the status bar shows "Connecting...". -/
def initControls : Controls :=
  { fanModeSel := { selected := none, suppress := false },
    fanSpeed := { minVal := 0, maxVal := 7, stepVal := 1, value := 0, suppress := false },
    whooshSw := false,
    ecoSw := false,
    reverseSw := false,
    comfortSw := false,
    comfortTempBar := { minVal := 10, maxVal := 35, stepVal := 1, value := 0, suppress := false },
    comfortMinBar := { minVal := 0, maxVal := 7, stepVal := 1, value := 0, suppress := false },
    comfortMaxBar := { minVal := 0, maxVal := 7, stepVal := 1, value := 0, suppress := false },
    heatAssistSw := false,
    heatSpeedBar := { minVal := 0, maxVal := 7, stepVal := 1, value := 0, suppress := false },
    heatReverseSw := false,
    motionSw := false,
    motionTimeoutBar := { minVal := 0, maxVal := 10800, stepVal := 60, value := 0, suppress := false },
    rtaSw := false,
    rtaTimeoutBar := { minVal := 0, maxVal := 10800, stepVal := 60, value := 0, suppress := false },
    smartmixSw := false,
    smartmixSpeedBar := { minVal := 1, maxVal := 7, stepVal := 1, value := 0, suppress := false },
    lightModeSel := { selected := none, suppress := false },
    lightBrightBar := { minVal := 0, maxVal := 100, stepVal := 5, value := 0, suppress := false },
    lightCtBar := { minVal := 2200, maxVal := 5000, stepVal := 100, value := 0, suppress := false },
    dtwSw := false,
    lightMotionTimeoutBar := { minVal := 0, maxVal := 10800, stepVal := 60, value := 0, suppress := false },
    lightRtaSw := false,
    lightRtaTimeoutBar := { minVal := 0, maxVal := 10800, stepVal := 60, value := 0, suppress := false },
    nlEnabledSw := false,
    nlBrightBar := { minVal := 1, maxVal := 100, stepVal := 5, value := 0, suppress := false },
    nlColorBar := { minVal := 1, maxVal := 9, stepVal := 1, value := 0, suppress := false },
    nlActivePreset := none,
    lightTabVisible := true,
    nightlightTabVisible := true,
    tempLabel := none,
    humidityLabel := none,
    rpmLabel := (none, none),
    fanOccLabel := none,
    lightOccLabel := none,
    ledSw := false,
    beepSw := false,
    irSw := false,
    titleText := "Big Ass Fan Control",
    subTitleText := "",
    statusBar := "Connecting..." }

/-- App state right after `FanApp.__init__` and `compose`: `_updating` false,
no device attached, no callback registered. The nightlight color bounds (1, 9)
stand in for the library constants `NIGHTLIGHT_COLOR_MIN`/`MAX`, which live in
aiobafi6 outside the modelled source; the preset values span exactly 1..9. -/
def initState : AppState :=
  { updating := false,
    device := none,
    callbackRegistered := false,
    linkRunning := false,
    ui := initControls }

/-- A snapshot in which the device reports no nightlight and nothing else,
used as a concrete test input. -/
def propsNoNl : DeviceProps :=
  { name := some "Living Room", model := some "Haiku", firmware_version := some "3.1.0",
    ip_address := some "192.168.1.20", available := true,
    fan_mode := some OffOnAuto.auto, speed := some 3,
    whoosh_enable := none, eco_enable := none, reverse_enable := none,
    auto_comfort_enable := none, comfort_ideal_temperature := none,
    comfort_min_speed := none, comfort_max_speed := none,
    comfort_heat_assist_enable := none, comfort_heat_assist_speed := none,
    comfort_heat_assist_reverse_enable := none,
    motion_sense_enable := none, motion_sense_timeout := none,
    return_to_auto_enable := none, return_to_auto_timeout := none,
    smart_mix_enable := none, smart_mix_speed := none,
    has_any_light := true, light_mode := some OffOnAuto.off,
    light_brightness_percent := none, light_color_temperature := none,
    light_warmest_color_temperature := none, light_coolest_color_temperature := none,
    light_dim_to_warm_enable := none, light_auto_motion_timeout := none,
    light_return_to_auto_enable := none, light_return_to_auto_timeout := none,
    has_nightlight := false, nightlight_enabled := none,
    nightlight_brightness_percent := none, nightlight_color := none,
    temperature := none, humidity := none, current_rpm := none, target_rpm := none,
    fan_occupancy_detected := none, light_occupancy_detected := none,
    led_indicators_enable := none, fan_beep_enable := none,
    legacy_ir_remote_enable := none }

/-- Frame of a user-event handler: everything except the device write log is
unchanged — the UI, the `_updating` flag, the link bookkeeping and the device's
property snapshot — and the write log is only ever extended at the tail. -/
def FrameOnly (s t : AppState) : Prop :=
  t.ui = s.ui ∧ t.updating = s.updating ∧
  t.callbackRegistered = s.callbackRegistered ∧ t.linkRunning = s.linkRunning ∧
  devProps t = devProps s ∧ ∃ l, devWrites t = devWrites s ++ l

/-- A refresh body step that raises exactly when the `_updating` flag is NOT
set, used to observe that the flag is raised before the quiet-update pass. -/
def probeAct : RefreshAct :=
  fun st => (st, [], if st.updating = true then none else some "suppress flag off")

/-- Widget ids of the nightlight control group (switch and bars). -/
def nlControlIds : List String := ["nl-enabled-sw", "nl-bright-bar", "nl-color-bar"]

/-- A fan-speed-shaped bar (bounds `[0,7]`, step 1) at value 0, suppress off. -/
def vbSpeed0 : ValueBar := { minVal := 0, maxVal := 7, stepVal := 1, value := 0, suppress := false }

/-- The same bar with the widget suppress flag set. -/
def vbSpeed0Sup : ValueBar := { minVal := 0, maxVal := 7, stepVal := 1, value := 0, suppress := true }

/-- A motion-timeout-shaped bar (bounds `[0,10800]`, step 60) at value 0. -/
def vbMotion0 : ValueBar := { minVal := 0, maxVal := 10800, stepVal := 60, value := 0, suppress := false }

/-- A mode selector with nothing pressed and suppress off. -/
def msInit : ModeSelector := { selected := none, suppress := false }

/-- Does a quiet update target a nightlight-group control? -/
def isNlUpdate (u : QuietUpdate) : Bool := nlControlIds.contains u.1

/-- The app state reached by `_connect_device` when resolution succeeds but the
10-second availability wait times out. -/
def connectTimedOut (host ip : String) (port : Int) (p0 : DeviceProps) (s : AppState) : AppState :=
  connect_device host port
    { resolveResult := Except.ok ip, waitAvailable := false, firstProps := p0 } s

/-- The no-nightlight snapshot with the fan mode already ON. -/
def propsFanOn : DeviceProps := { propsNoNl with fan_mode := some OffOnAuto.on }

/-- A freshly attached device reporting `propsNoNl`, with an empty write log. -/
def devAuto : Device := { props := propsNoNl, writes := [] }

/-- A freshly attached device whose fan mode is already ON. -/
def devOn : Device := { props := propsFanOn, writes := [] }

/-- The app state with `devAuto` attached and the suppress flag at rest. -/
def stAuto : AppState := { initState with device := some devAuto }

/-- The app state with `devOn` attached and the suppress flag at rest. -/
def stOn : AppState := { initState with device := some devOn }

/-- The no-nightlight snapshot additionally reporting color-temperature
hardware bounds 2700..5000 K and a reported color temperature of 2000 K (below
the warmest bound). -/
def propsLightCt : DeviceProps :=
  { propsNoNl with
      light_warmest_color_temperature := some 2700,
      light_coolest_color_temperature := some 5000,
      light_color_temperature := some 2000 }

/-- The no-nightlight snapshot additionally reporting a comfort ideal
temperature of 30.5 degrees (a half, to exercise round-half-to-even). -/
def propsIdeal : DeviceProps :=
  { propsNoNl with comfort_ideal_temperature := some (mkRat 61 2) }

/-- A concrete action sequence poking every nightlight control plus a fan edit
and a second gating snapshot, used as a test run. -/
def c2Acts : List AppAction :=
  [AppAction.valueChanged "nl-bright-bar" 50, AppAction.nlPreset 3,
   AppAction.switchChanged "nl-enabled-sw" true, AppAction.valueChanged "fan-speed" 5,
   AppAction.snapshot propsNoNl]

/-- Modelled from the spec: the boolean toggle control is a toolkit widget
absent from the modelled source; per the spec a toggle flip "always emits
exactly one change event with the new ... value, except while the engine-wide
suppress flag is active, in which case the control must not emit at all (this
is enforced cooperatively: each control checks the flag before posting)". A
boolean needs no clipping, so the event carries the new value itself. -/
structure ToggleSwitch where
  value : Bool
  suppress : Bool
deriving DecidableEq, Repr

/-- Modelled from the spec: a toggle flip to `v` updates the displayed value
and posts exactly one change event carrying `v` unless the suppress flag is
active. The returned list is the list of posted change values. -/
def ToggleSwitch.on_toggle (sw : ToggleSwitch) (v : Bool) : ToggleSwitch × List Bool :=
  let sw1 := { sw with value := v }
  if sw.suppress = false then (sw1, [v]) else (sw1, [])

/-- A toggle that is off, with the suppress flag inactive. -/
def tsOff : ToggleSwitch := { value := false, suppress := false }

/-- A toggle that is off, with the suppress flag active. -/
def tsOffSup : ToggleSwitch := { value := false, suppress := true }

/-!  ## Helper lemmas  -/

theorem set_value_quiet_def (bar : ValueBar) (v : Int) :
    bar.set_value_quiet v =
      { bar with value := max bar.minVal (min bar.maxVal v), suppress := false } := rfl

theorem mem_barLog {u : QuietUpdate} {wid : String} {o : Option Int} :
    u ∈ barLog wid o ↔ ∃ v, o = some v ∧ u = (wid, Val.i v) := by
  cases o <;> simp [barLog]

theorem mem_swLog {u : QuietUpdate} {sid : String} {o : Option Bool} :
    u ∈ swLog sid o ↔ ∃ v, o = some v ∧ u = (sid, Val.b v) := by
  cases o <;> simp [swLog]

theorem mem_modeLog {u : QuietUpdate} {wid : String} {o : Option OffOnAuto} :
    u ∈ modeLog wid o ↔ ∃ v, o = some v ∧ u = (wid, Val.m v) := by
  cases o <;> simp [modeLog]

/-!  ## C1 — clipping in `set_value_quiet`  -/

/-- C1 counterexample: with bounds `[0, 10800]` and step `60`,
`set_value_quiet(125)` displays `125`, not the `120` the claim requires —
`ValueBar.set_value_quiet` clips to `[min, max]` but performs no rounding to a
multiple of the step. -/
theorem c1_counterexample :
    (vbMotion0.set_value_quiet 125).value = 125 ∧
    ¬ ((vbMotion0.set_value_quiet 125).value = 120) := by
  constructor
  · rfl
  · decide

/-- C1 (amended): for every bounded-integer control with bounds `[min, max]`
and for every integer `v`, `set_value_quiet(v)` displays `clip(v, min, max)` —
with no rounding to a multiple of the step; in particular with bounds `[0,7]`
input `9` displays `7`, and with bounds `[0,10800]` step `60` input `125`
displays `125`. The widget suppress flag is back to `false` afterwards. -/
theorem c1_amended :
    (∀ (bar : ValueBar) (v : Int),
      (bar.set_value_quiet v).value = max bar.minVal (min bar.maxVal v) ∧
      (bar.set_value_quiet v).suppress = false) ∧
    (vbSpeed0.set_value_quiet 9).value = 7 ∧
    (vbMotion0.set_value_quiet 125).value = 125 := by
  refine ⟨fun bar v => ⟨rfl, rfl⟩, by decide, by decide⟩

/-!  ## C6 — events emitted by user interaction  -/

/-- C6 counterexample: a `[-]` press on a bar already at its minimum (bounds
`[0,7]`, value `0`, suppress flag inactive) emits zero `Changed` events, not
the exactly-one the claim requires. -/
theorem c6_counterexample : ¬ ((vbSpeed0.on_button BtnId.dec).2.length = 1) := by
  decide

/-- C6 (amended): every user interaction — button press, toggle flip, radio
select — while the suppress flag is inactive emits exactly one change event
carrying the new, already-clipped value, with the single carve-out the
counterexample forces: a button press whose stepped-and-clipped target equals
the current value (press at a bound) emits no event; while the suppress flag
is active no control emits at all. Toggle flips (toolkit widget, absent from
the source) follow the spec-modelled `ToggleSwitch`. -/
theorem c6_amended (bar : ValueBar) (btn : BtnId) (sel : ModeSelector) (m : OffOnAuto)
    (sw : ToggleSwitch) (b : Bool) :
    (bar.suppress = true → (bar.on_button btn).2 = []) ∧
    (bar.suppress = false → bar.btnTarget btn ≠ bar.value →
      (bar.on_button btn).2 = [bar.btnTarget btn]) ∧
    (bar.btnTarget btn = bar.value → (bar.on_button btn).2 = []) ∧
    (sw.suppress = false → (sw.on_toggle b).2 = [b]) ∧
    (sw.suppress = true → (sw.on_toggle b).2 = []) ∧
    (sel.suppress = false → sel.on_radio_changed m = [m]) ∧
    (sel.suppress = true → sel.on_radio_changed m = []) := by
  refine ⟨?_, ?_, ?_, ?_, ?_, ?_, ?_⟩
  · intro h
    cases btn <;> simp [ValueBar.on_button, h] <;> split <;> rfl
  · intro h hne
    cases btn <;> simp [ValueBar.on_button, ValueBar.btnTarget, h] at hne ⊢ <;>
      simp [hne]
  · intro h
    cases btn <;> simp [ValueBar.on_button, ValueBar.btnTarget] at h ⊢ <;> simp [h]
  · intro h
    simp [ToggleSwitch.on_toggle, h]
  · intro h
    simp [ToggleSwitch.on_toggle, h]
  · intro h
    simp [ModeSelector.on_radio_changed, h]
  · intro h
    simp [ModeSelector.on_radio_changed, h]

/-- C6 witness: on the initial fan-speed bar (value 0, suppress inactive) a
`[+]` press emits exactly the one event `[1]`; on a suppressed copy the press
emits nothing; an unsuppressed toggle flip to on emits `[true]` while a
suppressed one emits nothing; and an unsuppressed radio select of AUTO emits
`[AUTO]`. -/
theorem c6_witness :
    (vbSpeed0.on_button BtnId.inc).2 = [1] ∧
    (vbSpeed0Sup.on_button BtnId.inc).2 = [] ∧
    (tsOff.on_toggle true).2 = [true] ∧
    (tsOffSup.on_toggle true).2 = [] ∧
    msInit.on_radio_changed OffOnAuto.auto = [OffOnAuto.auto] := by
  refine ⟨?_, ?_, ?_, ?_, ?_⟩
  · exact (c6_amended vbSpeed0 BtnId.inc msInit OffOnAuto.auto tsOff true).2.1 rfl
      (by decide)
  · exact (c6_amended vbSpeed0Sup BtnId.inc msInit OffOnAuto.auto tsOff true).1 rfl
  · exact (c6_amended vbSpeed0 BtnId.inc msInit OffOnAuto.auto tsOff true).2.2.2.1 rfl
  · exact (c6_amended vbSpeed0 BtnId.inc msInit OffOnAuto.auto tsOffSup true).2.2.2.2.1 rfl
  · exact (c6_amended vbSpeed0 BtnId.inc msInit OffOnAuto.auto tsOff
      true).2.2.2.2.2.1 rfl

/-!  ## C4 — the engine-wide suppress flag  -/

/-- C4: the engine-wide `_updating` flag is false at rest (initial state); the
`try/finally` skeleton of `_refresh_all` leaves it false after every
quiet-update pass, for every possible body — including bodies that raise
(`refreshAllWith` is quantified over arbitrary action lists, and the error is
propagated in the third component); a snapshot application entered with the
flag at rest returns with it false; and the body itself always observes the
flag set (the probe action, which raises exactly when the flag is off, never
raises). -/
theorem c4_suppress_flag :
    initState.updating = false ∧
    (∀ (acts : List RefreshAct) (s : AppState), ((refreshAllWith acts s).1).updating = false) ∧
    (∀ s : AppState, s.updating = false → ((refresh_all s).1).updating = false) ∧
    (∀ s : AppState, (refreshAllWith [probeAct] s).2.2 = none) := by
  refine ⟨rfl, fun acts s => rfl, ?_, ?_⟩
  · intro s h
    unfold refresh_all
    cases hd : s.device with
    | none => exact h
    | some dev => rfl
  · intro s
    simp [refreshAllWith, runActs, probeAct]

/-- C4 witness: a snapshot application from the initial state returns with the
flag false, and a one-action error-free pass from the initial state leaves it
false as well. -/
theorem c4_witness :
    ((refresh_all initState).1).updating = false ∧
    ((refreshAllWith [probeAct] initState).1).updating = false := by
  exact ⟨c4_suppress_flag.2.2.1 initState rfl, c4_suppress_flag.2.1 [probeAct] initState⟩

/-!  ## C5 — user events ignored while suppressed or unattached  -/

/-- C5: a user-change event arriving while the `_updating` suppress flag is
active, or while no device is attached, is ignored entirely by every handler:
the handler returns the state unchanged, so no device write and no state
change happens. Together with `c4`'s probe (the refresh body always runs with
the flag set), no user event is re-interpreted as an edit during snapshot
application. -/
theorem c5_event_guard (s : AppState) (wid sid : String) (v : Int) (bv : Bool)
    (m : OffOnAuto) (pv : Int)
    (h : s.updating = true ∨ s.device = none) :
    on_value_changed s wid v = s ∧ on_switch_changed s sid bv = s ∧
    on_mode_changed s wid m = s ∧ on_nl_color_preset s pv = s := by
  rcases h with h | h
  · exact ⟨by simp [on_value_changed, h], by simp [on_switch_changed, h],
      by simp [on_mode_changed, h], by simp [on_nl_color_preset, h]⟩
  · exact ⟨by simp [on_value_changed, h], by simp [on_switch_changed, h],
      by simp [on_mode_changed, h], by simp [on_nl_color_preset, h]⟩

/-- C5 witness: with the suppress flag raised in the initial state, a fan-speed
edit, a whoosh toggle, a fan-mode select and a nightlight preset press all
leave the state untouched. -/
theorem c5_witness :
    on_value_changed { initState with updating := true } "fan-speed" 3 =
      { initState with updating := true } ∧
    on_switch_changed { initState with updating := true } "whoosh-sw" true =
      { initState with updating := true } ∧
    on_mode_changed { initState with updating := true } "fan-mode-sel" OffOnAuto.on =
      { initState with updating := true } ∧
    on_nl_color_preset { initState with updating := true } 3 =
      { initState with updating := true } :=
  c5_event_guard { initState with updating := true } "fan-speed" "whoosh-sw" 3 true
    OffOnAuto.on 3 (Or.inl rfl)

/-!  ## Write-log helper lemmas  -/

theorem filter_append_nil {l1 l2 : List DevWrite} (h : l2.filter nlWrite = []) :
    (l1 ++ l2).filter nlWrite = l1.filter nlWrite := by
  rw [List.filter_append, h, List.append_nil]

theorem write_writes_append (dev : Device) (f : String) (v : Val) :
    ∃ l, (dev.write f v).writes = dev.writes ++ l := ⟨[(f, v)], rfl⟩

theorem write2_writes_append (dev : Device) (f1 : String) (v1 : Val) (f2 : String) (v2 : Val) :
    ∃ l, ((dev.write f1 v1).write f2 v2).writes = dev.writes ++ l :=
  ⟨[(f1, v1), (f2, v2)], by simp [Device.write]⟩

theorem value_writes_props {dev : Device} {wid : String} {v : Int} {dev1 : Device}
    (h : value_writes dev wid v = some dev1) :
    dev1.props = dev.props ∧ ∃ l, dev1.writes = dev.writes ++ l := by
  unfold value_writes at h
  split at h
  all_goals cases h
  all_goals refine ⟨by first | rfl | (split <;> rfl), ?_⟩
  all_goals first
    | exact write_writes_append _ _ _
    | (split
       · exact write2_writes_append _ _ _ _ _
       · exact write_writes_append _ _ _)

theorem value_writes_nl_filter {dev : Device} {wid : String} {v : Int} {dev1 : Device}
    (h : value_writes dev wid v = some dev1)
    (hw : nlBarIds.contains wid = false) :
    dev1.writes.filter nlWrite = dev.writes.filter nlWrite := by
  unfold value_writes at h
  split at h
  all_goals cases h
  all_goals first
    | exact filter_append_nil rfl
    | (split
       · simp only [Device.write, List.append_assoc]
         exact filter_append_nil rfl
       · exact filter_append_nil rfl)
    | simp_all [nlBarIds]

/-!  ## Handler frame lemmas  -/

theorem frameOnly_refl (s : AppState) : FrameOnly s s :=
  ⟨rfl, rfl, rfl, rfl, rfl, [], (List.append_nil _).symm⟩

theorem frameOnly_write {s : AppState} {dev : Device} (h : s.device = some dev)
    (f : String) (v : Val) :
    FrameOnly s { s with device := some (dev.write f v) } := by
  refine ⟨rfl, rfl, rfl, rfl, ?_, [(f, v)], ?_⟩ <;>
    simp [devProps, devWrites, h, Device.write]

theorem on_value_changed_frame (s : AppState) (wid : String) (v : Int) :
    FrameOnly s (on_value_changed s wid v) := by
  unfold on_value_changed
  repeat' split
  any_goals exact frameOnly_refl _
  all_goals
    rename_i dev1 hvw
  all_goals
    obtain ⟨hp, l, hw⟩ := value_writes_props hvw
    exact ⟨rfl, rfl, rfl, rfl, by simp_all [devProps], l, by simp_all [devWrites]⟩

theorem on_switch_changed_frame (s : AppState) (sid : String) (bv : Bool) :
    FrameOnly s (on_switch_changed s sid bv) := by
  unfold on_switch_changed
  repeat' split
  all_goals first
    | exact frameOnly_refl _
    | exact frameOnly_write (by assumption) _ _

theorem on_mode_changed_frame (s : AppState) (wid : String) (m : OffOnAuto) :
    FrameOnly s (on_mode_changed s wid m) := by
  unfold on_mode_changed
  repeat' split
  all_goals first
    | exact frameOnly_refl _
    | exact frameOnly_write (by assumption) _ _

theorem on_nl_color_preset_frame (s : AppState) (pv : Int) :
    FrameOnly s (on_nl_color_preset s pv) := by
  unfold on_nl_color_preset
  repeat' split
  all_goals first
    | exact frameOnly_refl _
    | exact frameOnly_write (by assumption) _ _

/-!  ## C3 — derived-write ordering for fan speed  -/

/-- C3: a single fan-speed edit while the reported fan mode is AUTO (device
attached, suppress flag inactive) issues exactly two writes, in order: first
`fan_mode = ON`, then `speed = v`; when the mode is already ON, only the speed
write is issued. -/
theorem c3_derived_write_order (s : AppState) (dev : Device) (v : Int)
    (hu : s.updating = false) (hd : s.device = some dev) :
    (dev.props.fan_mode = some OffOnAuto.auto →
      devWrites (on_value_changed s "fan-speed" v) =
        dev.writes ++ [("fan_mode", Val.m OffOnAuto.on), ("speed", Val.i v)]) ∧
    (dev.props.fan_mode = some OffOnAuto.on →
      devWrites (on_value_changed s "fan-speed" v) = dev.writes ++ [("speed", Val.i v)]) := by
  constructor <;> intro hm <;>
    simp [on_value_changed, value_writes, hu, hd, hm, needsOn, Device.write, devWrites,
      List.append_assoc]

/-- C3 witness: from a freshly attached device reporting fan mode AUTO and no
writes yet, a fan-speed edit of 5 issues `[fan_mode = ON, speed = 5]`; the
same edit with mode ON issues `[speed = 5]`. -/
theorem c3_witness :
    devWrites (on_value_changed stAuto "fan-speed" 5)
      = [("fan_mode", Val.m OffOnAuto.on), ("speed", Val.i 5)] ∧
    devWrites (on_value_changed stOn "fan-speed" 5) = [("speed", Val.i 5)] := by
  constructor
  · exact (c3_derived_write_order stAuto devAuto 5 rfl rfl).1 rfl
  · exact (c3_derived_write_order stOn devOn 5 rfl rfl).2 rfl

/-!  ## C9 — user-edit handlers only write to the device  -/

/-- C9: handling a user edit never modifies the displayed control state, the
`_updating` flag, the link bookkeeping, or the engine's current device
snapshot: each of the four handlers satisfies `FrameOnly` — everything but the
device write log is unchanged, and the write log is only extended at the tail.
The edited value therefore appears in the controls only when a later snapshot
application delivers it. -/
theorem c9_handler_frame (s : AppState) (wid sid : String) (v : Int) (bv : Bool)
    (m : OffOnAuto) (pv : Int) :
    FrameOnly s (on_value_changed s wid v) ∧ FrameOnly s (on_switch_changed s sid bv) ∧
    FrameOnly s (on_mode_changed s wid m) ∧ FrameOnly s (on_nl_color_preset s pv) :=
  ⟨on_value_changed_frame s wid v, on_switch_changed_frame s sid bv,
    on_mode_changed_frame s wid m, on_nl_color_preset_frame s pv⟩

/-!  ## Refresh-pass projection lemmas  -/

theorem refresh_header_statusBar (p : DeviceProps) (c : Controls) :
    ((refresh_header p c).1).statusBar = headerStatusLine p := rfl

theorem refresh_fan_statusBar (p : DeviceProps) (c : Controls) :
    ((refresh_fan p c).1).statusBar = c.statusBar := rfl

theorem refresh_light_statusBar (p : DeviceProps) (c : Controls) :
    ((refresh_light p c).1).statusBar = c.statusBar := by
  unfold refresh_light
  split <;> rfl

theorem refresh_nightlight_statusBar (p : DeviceProps) (c : Controls) :
    ((refresh_nightlight p c).1).statusBar = c.statusBar := by
  unfold refresh_nightlight
  split <;> rfl

theorem refresh_sensors_statusBar (p : DeviceProps) (c : Controls) :
    ((refresh_sensors p c).1).statusBar = c.statusBar := rfl

theorem refresh_settings_statusBar (p : DeviceProps) (c : Controls) :
    ((refresh_settings p c).1).statusBar = c.statusBar := rfl

theorem refresh_all_ui (s : AppState) (dev : Device) (h : s.device = some dev) :
    ((refresh_all s).1).ui =
      (refresh_settings dev.props ((refresh_sensors dev.props ((refresh_nightlight dev.props
        ((refresh_light dev.props ((refresh_fan dev.props
          ((refresh_header dev.props s.ui).1)).1)).1)).1)).1)).1 := by
  unfold refresh_all
  rw [h]
  simp [refreshAllWith, runActs, liftUI]

theorem refresh_all_statusBar (s : AppState) (dev : Device) (h : s.device = some dev) :
    ((refresh_all s).1).ui.statusBar = headerStatusLine dev.props := by
  rw [refresh_all_ui s dev h, refresh_settings_statusBar, refresh_sensors_statusBar,
    refresh_nightlight_statusBar, refresh_light_statusBar, refresh_fan_statusBar,
    refresh_header_statusBar]

theorem refresh_all_device (s : AppState) : ((refresh_all s).1).device = s.device := by
  unfold refresh_all
  cases h : s.device with
  | none => exact h
  | some dev => simp [refreshAllWith, runActs, liftUI, h]

/-!  ## C7 — color-temperature re-ranging before the value  -/

/-- C7: within a single snapshot-application pass, when the device reports
both hardware color-temperature bounds and a color-temperature value,
`_refresh_light` applies the bounds to the color-temperature bar before
quiet-setting its value, so the displayed value is clipped into the NEW
bounds; the bar's suppress flag is restored afterwards. Re-ranging itself is a
plain bounds assignment (`reRangeCt`) and the quiet set posts nothing, so no
change event is emitted anywhere on this path (the embedding's only
event-posting operations are `on_button` and `on_radio_changed`). -/
theorem c7_ct_rerange (p : DeviceProps) (c : Controls) (w cl t : Int)
    (hl : p.has_any_light = true)
    (hw : p.light_warmest_color_temperature = some w)
    (hc : p.light_coolest_color_temperature = some cl)
    (ht : p.light_color_temperature = some t) :
    ((refresh_light p c).1).lightCtBar.minVal = w ∧
    ((refresh_light p c).1).lightCtBar.maxVal = cl ∧
    ((refresh_light p c).1).lightCtBar.value = max w (min cl t) ∧
    ((refresh_light p c).1).lightCtBar.suppress = false := by
  simp [refresh_light, hl, hw, hc, ht, quietBar, reRangeCt, ValueBar.set_value_quiet]

/-- C7 witness: with reported bounds 2700..5000 and reported value 2000, the
color-temperature bar ends re-ranged to `[2700, 5000]` showing 2700 — the
value was clipped into the new bounds, not the composed `[2200, 5000]` ones. -/
theorem c7_witness :
    ((refresh_light propsLightCt initControls).1).lightCtBar.minVal = 2700 ∧
    ((refresh_light propsLightCt initControls).1).lightCtBar.maxVal = 5000 ∧
    ((refresh_light propsLightCt initControls).1).lightCtBar.value = 2700 := by
  have h := c7_ct_rerange propsLightCt initControls 2700 5000 2000 rfl rfl rfl rfl
  exact ⟨h.1, h.2.1, h.2.2.1⟩

/-!  ## C10 — comfort ideal temperature rounding and write-back  -/

/-- C10: a reported floating-point comfort ideal temperature `f` is displayed
as `int(round(f))` — Python round-half-to-even, embedded as `pythonRound` over
the exact rational value of the float — clipped into the bar's `[10, 35]`
bounds; conversely a user edit of the ideal-temperature bar writes back
exactly `float(v)` of the chosen integer. -/
theorem c10_ideal_temp_round :
    (∀ (p : DeviceProps) (c : Controls) (f : Rat),
      p.comfort_ideal_temperature = some f →
      c.comfortTempBar.minVal = 10 → c.comfortTempBar.maxVal = 35 →
      ((refresh_fan p c).1).comfortTempBar.value = max 10 (min 35 (pythonRound f))) ∧
    (∀ (s : AppState) (dev : Device) (v : Int),
      s.updating = false → s.device = some dev →
      devWrites (on_value_changed s "comfort-temp-bar" v) =
        dev.writes ++ [("comfort_ideal_temperature", Val.q (v : Rat))]) := by
  constructor
  · intro p c f hf h10 h35
    simp [refresh_fan, hf, quietBar, ValueBar.set_value_quiet, h10, h35]
  · intro s dev v hu hd
    simp [on_value_changed, value_writes, hu, hd, devWrites, Device.write]

/-- C10 witness: a reported ideal temperature of 30.5 displays as 30
(round-half-to-even), and an edit to 25 writes back `25.0` exactly. -/
theorem c10_witness :
    ((refresh_fan propsIdeal initControls).1).comfortTempBar.value = 30 ∧
    devWrites (on_value_changed stAuto "comfort-temp-bar" 25) =
      [("comfort_ideal_temperature", Val.q 25)] := by
  constructor
  · exact (c10_ideal_temp_round.1 propsIdeal initControls (mkRat 61 2) rfl rfl rfl).trans
      (by decide)
  · exact c10_ideal_temp_round.2 stAuto devAuto 25 rfl rfl

/-!  ## C8 — late-availability promotion after a timeout  -/

/-- C8: when resolution succeeds but the availability wait times out,
`_connect_device` reports the timed-out message on the status line yet leaves
the update callback registered and the link running; a snapshot delivered
later through the callback (no new connect call — `on_device_update` alone)
replaces the status line with the normal header status, which reads
`... | Connected` once the device reports availability. -/
theorem c8_late_promotion (host ip : String) (port : Int) (p0 p1 : DeviceProps)
    (s : AppState) :
    (connectTimedOut host ip port p0 s).ui.statusBar = timeoutStatusLine ip ∧
    (connectTimedOut host ip port p0 s).callbackRegistered = true ∧
    (connectTimedOut host ip port p0 s).linkRunning = true ∧
    (on_device_update p1 (connectTimedOut host ip port p0 s)).ui.statusBar =
      headerStatusLine p1 := by
  refine ⟨rfl, rfl, rfl, ?_⟩
  have hcb : (connectTimedOut host ip port p0 s).callbackRegistered = true := rfl
  simp only [on_device_update, hcb, if_true]
  exact refresh_all_statusBar (applyProps (connectTimedOut host ip port p0 s) p1)
    (⟨p1, devWrites (connectTimedOut host ip port p0 s)⟩ : Device) rfl

/-!  ## Nightlight gating lemmas  -/

theorem refresh_nightlight_false (p : DeviceProps) (c : Controls)
    (h : p.has_nightlight = false) :
    refresh_nightlight p c = ({ c with nightlightTabVisible := false }, []) := by
  simp [refresh_nightlight, h]

theorem refresh_sensors_nlVisible (p : DeviceProps) (c : Controls) :
    ((refresh_sensors p c).1).nightlightTabVisible = c.nightlightTabVisible := rfl

theorem refresh_settings_nlVisible (p : DeviceProps) (c : Controls) :
    ((refresh_settings p c).1).nightlightTabVisible = c.nightlightTabVisible := rfl

theorem refresh_all_nlVisible (s : AppState) (dev : Device) (h : s.device = some dev)
    (hn : dev.props.has_nightlight = false) :
    ((refresh_all s).1).ui.nightlightTabVisible = false := by
  rw [refresh_all_ui s dev h, refresh_settings_nlVisible, refresh_sensors_nlVisible,
    refresh_nightlight_false dev.props _ hn]

theorem filter_barLog_nil {wid : String} (o : Option Int)
    (h : nlControlIds.contains wid = false) :
    (barLog wid o).filter isNlUpdate = [] := by
  cases o <;> simp_all [barLog, isNlUpdate]

theorem filter_swLog_nil {sid : String} (o : Option Bool)
    (h : nlControlIds.contains sid = false) :
    (swLog sid o).filter isNlUpdate = [] := by
  cases o <;> simp_all [swLog, isNlUpdate]

theorem filter_modeLog_nil {wid : String} (o : Option OffOnAuto)
    (h : nlControlIds.contains wid = false) :
    (modeLog wid o).filter isNlUpdate = [] := by
  cases o <;> simp_all [modeLog, isNlUpdate]

theorem refresh_fan_filter (p : DeviceProps) (c : Controls) :
    ((refresh_fan p c).2).filter isNlUpdate = [] := by
  simp only [refresh_fan, List.filter_append]
  simp [filter_modeLog_nil, filter_barLog_nil, filter_swLog_nil, nlControlIds]

theorem refresh_light_filter (p : DeviceProps) (c : Controls) :
    ((refresh_light p c).2).filter isNlUpdate = [] := by
  unfold refresh_light
  split
  · rfl
  · simp only [List.filter_append]
    simp [filter_modeLog_nil, filter_barLog_nil, filter_swLog_nil, nlControlIds]

theorem refresh_nightlight_filter (p : DeviceProps) (c : Controls)
    (hn : p.has_nightlight = false) :
    ((refresh_nightlight p c).2).filter isNlUpdate = [] := by
  rw [refresh_nightlight_false p c hn]
  rfl

theorem refresh_settings_filter (p : DeviceProps) (c : Controls) :
    ((refresh_settings p c).2).filter isNlUpdate = [] := by
  simp only [refresh_settings, List.filter_append]
  simp [filter_swLog_nil, nlControlIds]

theorem refresh_all_no_nl_updates (s : AppState) (dev : Device) (h : s.device = some dev)
    (hn : dev.props.has_nightlight = false) :
    ((refresh_all s).2.1).filter isNlUpdate = [] := by
  unfold refresh_all
  rw [h]
  simp only [refreshAllWith, runActs, liftUI, List.filter_append, List.append_nil,
    List.nil_append]
  rw [refresh_fan_filter, refresh_light_filter, refresh_nightlight_filter _ _ hn,
    refresh_settings_filter]
  simp [refresh_header, refresh_sensors]

theorem on_value_changed_nl_filter (s : AppState) (wid : String) (v : Int)
    (hw : nlBarIds.contains wid = false) :
    (devWrites (on_value_changed s wid v)).filter nlWrite = (devWrites s).filter nlWrite := by
  unfold on_value_changed
  repeat' split
  any_goals rfl
  all_goals rename_i dev1 hvw
  all_goals
    have hfilter := value_writes_nl_filter hvw hw
    simp_all [devWrites]

theorem switch_map_nl_field {sid attr : String} (h : switch_map sid = some attr)
    (hs : sid ≠ "nl-enabled-sw") : nlFields.contains attr = false := by
  unfold switch_map at h
  split at h
  all_goals cases h
  all_goals first | rfl | simp_all

theorem on_switch_changed_nl_filter (s : AppState) (sid : String) (bv : Bool)
    (hs : sid ≠ "nl-enabled-sw") :
    (devWrites (on_switch_changed s sid bv)).filter nlWrite = (devWrites s).filter nlWrite := by
  unfold on_switch_changed
  repeat' split
  any_goals rfl
  all_goals rename_i attr hsm
  all_goals
    have hattr := switch_map_nl_field hsm hs
    have hnot : attr ∉ nlFields := by simpa using hattr
    simp_all [devWrites, Device.write, List.filter_append, nlWrite]

theorem on_mode_changed_nl_filter (s : AppState) (wid : String) (m : OffOnAuto) :
    (devWrites (on_mode_changed s wid m)).filter nlWrite = (devWrites s).filter nlWrite := by
  unfold on_mode_changed
  repeat' split
  any_goals rfl
  all_goals simp_all [devWrites, Device.write, List.filter_append]
  all_goals rfl

/-!  ## Run-level nightlight invariant  -/

theorem stepApp_nl_invariant (s : AppState) (a : AppAction)
    (hvis : s.ui.nightlightTabVisible = false)
    (hsnap : ∀ p, a = AppAction.snapshot p → p.has_nightlight = false) :
    ((stepApp s a).ui.nightlightTabVisible = false) ∧
    ((devWrites (stepApp s a)).filter nlWrite = (devWrites s).filter nlWrite) := by
  cases a with
  | snapshot p =>
    have hp : p.has_nightlight = false := hsnap p rfl
    constructor
    · exact refresh_all_nlVisible (applyProps s p) ⟨p, devWrites s⟩ rfl hp
    · have hd := refresh_all_device (applyProps s p)
      show (devWrites (refresh_all (applyProps s p)).1).filter nlWrite =
        (devWrites s).filter nlWrite
      have h2 : devWrites ((refresh_all (applyProps s p)).1) = devWrites s := by
        unfold devWrites
        rw [hd]
        simp [applyProps, devWrites]
      rw [h2]
  | valueChanged wid v =>
    by_cases hb : barVisible s.ui wid = true
    · have hw : nlBarIds.contains wid = false := by
        cases hcon : nlBarIds.contains wid with
        | false => rfl
        | true =>
          have hbv : barVisible s.ui wid = s.ui.nightlightTabVisible := by
            unfold barVisible
            rw [hcon, if_pos rfl]
          rw [hbv, hvis] at hb
          simp at hb
      refine ⟨?_, ?_⟩
      · have hui := (on_value_changed_frame s wid v).1
        simp [stepApp, hb, hui, hvis]
      · simp only [stepApp, hb, if_true]
        exact on_value_changed_nl_filter s wid v hw
    · simp [stepApp, hb, hvis]
  | switchChanged sid bv =>
    by_cases hb : swVisible s.ui sid = true
    · have hs : sid ≠ "nl-enabled-sw" := by
        intro hcon
        subst hcon
        have hbv : swVisible s.ui "nl-enabled-sw" = s.ui.nightlightTabVisible := by
          unfold swVisible
          rfl
        rw [hbv, hvis] at hb
        simp at hb
      refine ⟨?_, ?_⟩
      · have hui := (on_switch_changed_frame s sid bv).1
        simp [stepApp, hb, hui, hvis]
      · simp only [stepApp, hb, if_true]
        exact on_switch_changed_nl_filter s sid bv hs
    · simp [stepApp, hb, hvis]
  | modeChanged wid m =>
    by_cases hb : modeVisible s.ui wid = true
    · refine ⟨?_, ?_⟩
      · have hui := (on_mode_changed_frame s wid m).1
        simp [stepApp, hb, hui, hvis]
      · simp only [stepApp, hb, if_true]
        exact on_mode_changed_nl_filter s wid m
    · simp [stepApp, hb, hvis]
  | nlPreset pv =>
    simp [stepApp, hvis]

theorem runApp_nl_invariant (acts : List AppAction) :
    ∀ s : AppState, s.ui.nightlightTabVisible = false →
    (∀ p, AppAction.snapshot p ∈ acts → p.has_nightlight = false) →
    ((runApp s acts).ui.nightlightTabVisible = false) ∧
    ((devWrites (runApp s acts)).filter nlWrite = (devWrites s).filter nlWrite) := by
  induction acts with
  | nil => intro s hvis _; exact ⟨hvis, rfl⟩
  | cons a rest ih =>
    intro s hvis hsnap
    have hstep := stepApp_nl_invariant s a hvis (fun p hp => hsnap p (by simp [hp]))
    have hrest := ih (stepApp s a) hstep.1 (fun p hp => hsnap p (by simp [hp]))
    exact ⟨hrest.1, hrest.2.trans hstep.2⟩

theorem stepApp_snapshot_writes (s : AppState) (p : DeviceProps) :
    devWrites (stepApp s (AppAction.snapshot p)) = devWrites s := by
  have hd := refresh_all_device (applyProps s p)
  show devWrites (refresh_all (applyProps s p)).1 = devWrites s
  unfold devWrites
  rw [hd]
  simp [applyProps, devWrites]

/-!  ## C2 — nightlight capability gating  -/

/-- C2: in every run whose snapshots all report no nightlight capability,
after the first snapshot (which hides the nightlight tab) the tab stays hidden
for the remainder of the run and the device write log never gains a
nightlight-field write — hidden controls cannot be interacted with, so no
nightlight user event is dispatched (the toolkit side of this, hidden ⇒ no
events, is modelled from the spec in `barVisible`/`swVisible`). Moreover a
gating snapshot gives zero quiet updates to nightlight controls: the
nightlight refresh is exactly hide-and-return, and a whole snapshot
application pass performs no quiet update naming a nightlight control. -/
theorem c2_nightlight_gating (s0 : AppState) (p0 : DeviceProps) (acts : List AppAction)
    (h0 : p0.has_nightlight = false)
    (hsnap : ∀ p, AppAction.snapshot p ∈ acts → p.has_nightlight = false) :
    ((runApp s0 (AppAction.snapshot p0 :: acts)).ui.nightlightTabVisible = false) ∧
    ((devWrites (runApp s0 (AppAction.snapshot p0 :: acts))).filter nlWrite =
      (devWrites s0).filter nlWrite) ∧
    (∀ (p : DeviceProps) (c : Controls), p.has_nightlight = false →
      refresh_nightlight p c = ({ c with nightlightTabVisible := false }, [])) ∧
    (∀ (t : AppState) (d : Device), t.device = some d → d.props.has_nightlight = false →
      ((refresh_all t).2.1).filter isNlUpdate = []) := by
  have hvis1 : (stepApp s0 (AppAction.snapshot p0)).ui.nightlightTabVisible = false :=
    refresh_all_nlVisible (applyProps s0 p0) ⟨p0, devWrites s0⟩ rfl h0
  have hrun := runApp_nl_invariant acts (stepApp s0 (AppAction.snapshot p0)) hvis1 hsnap
  have hw0 := stepApp_snapshot_writes s0 p0
  have hfold : runApp s0 (AppAction.snapshot p0 :: acts) =
      runApp (stepApp s0 (AppAction.snapshot p0)) acts := rfl
  refine ⟨?_, ?_, refresh_nightlight_false,
    fun t d hd hn => refresh_all_no_nl_updates t d hd hn⟩
  · rw [hfold]
    exact hrun.1
  · rw [hfold]
    exact hrun.2.trans (by rw [hw0])

/-- C2 witness: a run from the initial state whose first snapshot reports no
nightlight, followed by pokes at every nightlight control, a fan-speed edit
and a second snapshot, ends with the nightlight tab still hidden and with only
the fan-speed writes in the log (the nightlight-field filter is unchanged). -/
theorem c2_witness :
    ((runApp initState (AppAction.snapshot propsNoNl :: c2Acts)).ui.nightlightTabVisible
      = false) ∧
    ((devWrites (runApp initState (AppAction.snapshot propsNoNl :: c2Acts))).filter nlWrite
      = (devWrites initState).filter nlWrite) := by
  have h := c2_nightlight_gating initState propsNoNl c2Acts rfl
    (by intro p hp; simp [c2Acts] at hp; subst hp; rfl)
  exact ⟨h.1, h.2.1⟩
